import Mathlib

/-!
Verification of the core data model of the Horizon-Network-Common crate
(spatial partitioning, server registry, health aggregation, identifiers,
transfer tokens).

Conventions of the embedding:
* Rust `f64`/`f32` values are modelled as exact rationals (`ℚ`); the
  properties under study are order/arithmetic facts that are exact in this
  model.
* Rust `i64` region indices are modelled as unbounded integers (`ℤ`): the
  grid arithmetic involved (±1 steps, coordinate differences) never
  approaches the i64 range, so wrap-around is not modelled for them.
* Rust `u32` counters are modelled as naturals with an explicit `% 2^32`
  wrap wherever the source performs `u32` addition.
* Rust `String` values are modelled as `List Char`.
* `Utc::now()` timestamps are passed as an explicit `now : Nat` parameter;
  the clock is the only effect in the functions modelled here.
-/

/-- `WorldCoordinate` (src/spatial.rs): a 3D world position, three f64
components, modelled by rationals. -/
structure WorldCoordinate where
  x : ℚ
  y : ℚ
  z : ℚ
deriving DecidableEq

/-- `RegionCoordinate` (src/spatial.rs): discrete grid index of a region,
three i64 components. -/
structure RegionCoordinate where
  x : ℤ
  y : ℤ
  z : ℤ
deriving DecidableEq

/-- `RegionCoordinate::manhattan_distance` (src/spatial.rs line 125). -/
def RegionCoordinate.manhattan_distance (self other : RegionCoordinate) : ℤ :=
  |self.x - other.x| + |self.y - other.y| + |self.z - other.z|

/-- `RegionCoordinate::adjacent_regions` (src/spatial.rs line 130): the six
axis-aligned neighbours. -/
def RegionCoordinate.adjacent_regions (self : RegionCoordinate) : List RegionCoordinate :=
  [ ⟨self.x + 1, self.y, self.z⟩,
    ⟨self.x - 1, self.y, self.z⟩,
    ⟨self.x, self.y + 1, self.z⟩,
    ⟨self.x, self.y - 1, self.z⟩,
    ⟨self.x, self.y, self.z + 1⟩,
    ⟨self.x, self.y, self.z - 1⟩ ]

/-- `RegionCoordinate::to_world_center` (src/spatial.rs line 144). -/
def RegionCoordinate.to_world_center (self : RegionCoordinate) (region_size : ℚ) :
    WorldCoordinate :=
  ⟨(self.x : ℚ) * region_size, (self.y : ℚ) * region_size, (self.z : ℚ) * region_size⟩

/-- `RegionCoordinate::from_world_coordinate` (src/spatial.rs line 153):
floor division per axis. -/
def RegionCoordinate.from_world_coordinate (coord : WorldCoordinate) (region_size : ℚ) :
    RegionCoordinate :=
  ⟨⌊coord.x / region_size⌋, ⌊coord.y / region_size⌋, ⌊coord.z / region_size⌋⟩

/-- `RegionBounds` (src/spatial.rs): axis-aligned box, six f64 extents. -/
structure RegionBounds where
  min_x : ℚ
  max_x : ℚ
  min_y : ℚ
  max_y : ℚ
  min_z : ℚ
  max_z : ℚ
deriving DecidableEq

/-- `RegionBounds::contains` (src/spatial.rs line 245): all six face
comparisons are inclusive. -/
def RegionBounds.contains (self : RegionBounds) (coord : WorldCoordinate) : Bool :=
  decide (self.min_x ≤ coord.x) && decide (coord.x ≤ self.max_x) &&
  decide (self.min_y ≤ coord.y) && decide (coord.y ≤ self.max_y) &&
  decide (self.min_z ≤ coord.z) && decide (coord.z ≤ self.max_z)

/-- `RegionBounds::distance_to_boundary` (src/spatial.rs line 253):
per-axis minimum of the two face offsets, then the minimum over the axes. -/
def RegionBounds.distance_to_boundary (self : RegionBounds) (coord : WorldCoordinate) : ℚ :=
  let dx := min (coord.x - self.min_x) (self.max_x - coord.x)
  let dy := min (coord.y - self.min_y) (self.max_y - coord.y)
  let dz := min (coord.z - self.min_z) (self.max_z - coord.z)
  min (min dx dy) dz

/-- `RegionBounds::overlaps` (src/spatial.rs line 261): inclusive AABB
intersection test. -/
def RegionBounds.overlaps (self other : RegionBounds) : Bool :=
  decide (self.min_x ≤ other.max_x) && decide (other.min_x ≤ self.max_x) &&
  decide (self.min_y ≤ other.max_y) && decide (other.min_y ≤ self.max_y) &&
  decide (self.min_z ≤ other.max_z) && decide (other.min_z ≤ self.max_z)

/-- `ServerId` (src/server.rs line 15): a newtype over `String`; no
validation is performed anywhere in its interface. -/
structure ServerId where
  val : List Char
deriving DecidableEq

/-- `ServerId::from_string` (src/server.rs line 24): wraps the string
unchanged. -/
def ServerId.from_string (s : List Char) : ServerId :=
  ⟨s⟩

/-- `ServerId::as_str` (src/server.rs line 29): the inner string. -/
def ServerId.as_str (self : ServerId) : List Char :=
  self.val

/-- `Display for ServerId` (src/server.rs line 34): writes the inner
string verbatim. -/
def ServerId.display (self : ServerId) : List Char :=
  self.val

/-- `ServerStatus` (src/server.rs line 55). -/
inductive ServerStatus where
  | Starting
  | Running
  | Draining
  | Stopped
  | Error
deriving DecidableEq

/-- `ServerHeartbeat` (src/server.rs line 145); the f32 `load` is modelled
as a rational, the timestamp as an abstract instant. -/
structure ServerHeartbeat where
  server_id : ServerId
  status : ServerStatus
  current_connections : Nat
  load : ℚ
  timestamp : Nat
  avg_tick_ms : ℚ
  memory_bytes : Nat
deriving DecidableEq

/-- `ServerHeartbeat::new` (src/server.rs line 166): `load` is
`current_connections / capacity` guarded by `capacity > 0`, else 0. -/
def ServerHeartbeat.new (server_id : ServerId) (status : ServerStatus)
    (current_connections capacity : Nat) (now : Nat) : ServerHeartbeat :=
  let load : ℚ :=
    if capacity > 0 then (current_connections : ℚ) / (capacity : ℚ) else 0
  { server_id := server_id
    status := status
    current_connections := current_connections
    load := load
    timestamp := now
    avg_tick_ms := 0
    memory_bytes := 0 }

/-- Hex value of one character, case-insensitive, as accepted by
`uuid::Uuid::parse_str` for the hyphenated format. -/
def hexVal (c : Char) : Option Nat :=
  if '0' ≤ c ∧ c ≤ '9' then some (c.toNat - '0'.toNat)
  else if 'a' ≤ c ∧ c ≤ 'f' then some (c.toNat - 'a'.toNat + 10)
  else if 'A' ≤ c ∧ c ≤ 'F' then some (c.toNat - 'A'.toNat + 10)
  else none

/-- Lower-case hex digit character for a value below 16, as produced by
the `uuid` crate's `Display` implementation. -/
def hexChar (n : Nat) : Char :=
  if n < 10 then Char.ofNat ('0'.toNat + n) else Char.ofNat ('a'.toNat + n - 10)

/-- Fixed-width big-endian lower-case hex rendering of `n` (`w` digits). -/
def hexBE : Nat → Nat → List Char
  | _, 0 => []
  | n, w + 1 => hexChar (n / 16 ^ w) :: hexBE (n % 16 ^ w) w

/-- Reads exactly `w` hex characters (either case) into the accumulator,
returning the value and the rest of the input; fails on a non-hex
character or premature end of input. -/
def readHexGroup : Nat → Nat → List Char → Option (Nat × List Char)
  | acc, 0, cs => some (acc, cs)
  | _, _ + 1, [] => none
  | acc, w + 1, c :: cs =>
    match hexVal c with
    | some d => readHexGroup (acc * 16 + d) w cs
    | none => none

/-- The hyphenated textual form of a 128-bit UUID value, grouped
8-4-4-4-12, lower-case: the output of `uuid::Uuid`/`PlayerId` `Display`
(src/player.rs line 35). -/
def uuidChars (n : Nat) : List Char :=
  hexBE (n / 16 ^ 24) 8 ++ '-' ::
  (hexBE (n / 16 ^ 20 % 16 ^ 4) 4 ++ '-' ::
  (hexBE (n / 16 ^ 16 % 16 ^ 4) 4 ++ '-' ::
  (hexBE (n / 16 ^ 12 % 16 ^ 4) 4 ++ '-' ::
  hexBE (n % 16 ^ 12) 12)))

/-- `uuid::Uuid::parse_str` restricted to the hyphenated format: five
case-insensitive hex groups of widths 8, 4, 4, 4, 12 separated by
hyphens, no trailing input. -/
def parseUuidChars (cs : List Char) : Option Nat :=
  match readHexGroup 0 8 cs with
  | some (a, '-' :: r1) =>
    match readHexGroup 0 4 r1 with
    | some (b, '-' :: r2) =>
      match readHexGroup 0 4 r2 with
      | some (c, '-' :: r3) =>
        match readHexGroup 0 4 r3 with
        | some (d, '-' :: r4) =>
          match readHexGroup 0 12 r4 with
          | some (e, []) =>
            some ((((a * 16 ^ 4 + b) * 16 ^ 4 + c) * 16 ^ 4 + d) * 16 ^ 12 + e)
          | _ => none
        | _ => none
      | _ => none
    | _ => none
  | _ => none

/-- `PlayerId` (src/player.rs line 15): a newtype over `uuid::Uuid`,
modelled as the 128-bit value of the UUID. -/
structure PlayerId where
  val : Nat
deriving DecidableEq

/-- `PlayerId::from_str` (src/player.rs line 24): `Uuid::parse_str`
mapped into the newtype; `none` models `Err(uuid::Error)`. -/
def PlayerId.from_str (s : List Char) : Option PlayerId :=
  (parseUuidChars s).map PlayerId.mk

/-- `Display for PlayerId` (src/player.rs line 35): the hyphenated
lower-case UUID form of the inner value. -/
def PlayerId.to_string (self : PlayerId) : List Char :=
  uuidChars self.val

/-- `HealthStatus` (src/health.rs line 14). -/
inductive HealthStatus where
  | Healthy
  | Degraded
  | Unhealthy
  | Unknown
deriving DecidableEq

/-- `ComponentHealth` (src/health.rs line 113). -/
structure ComponentHealth where
  name : List Char
  status : HealthStatus
  details : Option (List Char)
  response_time_ms : Option Nat
deriving DecidableEq

/-- `HealthCheck` (src/health.rs line 40); f32 metrics as rationals,
the timestamp as an abstract instant. -/
structure HealthCheck where
  server_id : ServerId
  status : HealthStatus
  timestamp : Nat
  player_count : Nat
  capacity : Nat
  uptime_secs : Nat
  tick_rate : ℚ
  memory_mb : Nat
  cpu_percent : ℚ
  components : List ComponentHealth
  message : Option (List Char)
deriving DecidableEq

/-- `HealthCheck::healthy` (src/health.rs line 68). -/
def HealthCheck.healthy (server_id : ServerId) (player_count capacity : Nat)
    (now : Nat) : HealthCheck :=
  { server_id := server_id
    status := HealthStatus.Healthy
    timestamp := now
    player_count := player_count
    capacity := capacity
    uptime_secs := 0
    tick_rate := 60
    memory_mb := 0
    cpu_percent := 0
    components := []
    message := none }

/-- `HealthCheck::unhealthy` (src/health.rs line 85). -/
def HealthCheck.unhealthy (server_id : ServerId) (message : List Char)
    (now : Nat) : HealthCheck :=
  { server_id := server_id
    status := HealthStatus.Unhealthy
    timestamp := now
    player_count := 0
    capacity := 0
    uptime_secs := 0
    tick_rate := 0
    memory_mb := 0
    cpu_percent := 0
    components := []
    message := some message }

/-- `HealthCheck::load_factor` (src/health.rs line 102): guarded division,
0 when capacity is 0. -/
def HealthCheck.load_factor (self : HealthCheck) : ℚ :=
  if self.capacity = 0 then 0
  else (self.player_count : ℚ) / (self.capacity : ℚ)

/-- `ClusterHealth` (src/health.rs line 170). -/
structure ClusterHealth where
  status : HealthStatus
  healthy_servers : Nat
  degraded_servers : Nat
  unhealthy_servers : Nat
  total_players : Nat
  total_capacity : Nat
  timestamp : Nat
deriving DecidableEq

/-- One iteration of the accumulation loop of `ClusterHealth::new`
(src/health.rs lines 196-204): bump the counter selected by the check's
status (`Unknown` counts as unhealthy) and add players/capacity, all in
wrapping u32 arithmetic. -/
def clusterStep (acc : Nat × Nat × Nat × Nat × Nat) (check : HealthCheck) :
    Nat × Nat × Nat × Nat × Nat :=
  let healthy := acc.1
  let degraded := acc.2.1
  let unhealthy := acc.2.2.1
  let total_players := acc.2.2.2.1
  let total_capacity := acc.2.2.2.2
  let counters :=
    match check.status with
    | HealthStatus.Healthy => ((healthy + 1) % 4294967296, degraded, unhealthy)
    | HealthStatus.Degraded => (healthy, (degraded + 1) % 4294967296, unhealthy)
    | HealthStatus.Unhealthy => (healthy, degraded, (unhealthy + 1) % 4294967296)
    | HealthStatus.Unknown => (healthy, degraded, (unhealthy + 1) % 4294967296)
  (counters.1, counters.2.1, counters.2.2,
   (total_players + check.player_count) % 4294967296,
   (total_capacity + check.capacity) % 4294967296)

/-- `ClusterHealth::new` (src/health.rs line 189): fold the checks through
`clusterStep`, then derive the overall status from the counters. -/
def ClusterHealth.new (checks : List HealthCheck) (now : Nat) : ClusterHealth :=
  let acc := checks.foldl clusterStep (0, 0, 0, 0, 0)
  let healthy := acc.1
  let degraded := acc.2.1
  let unhealthy := acc.2.2.1
  let status :=
    if unhealthy > 0 ∧ healthy = 0 then HealthStatus.Unhealthy
    else if degraded > 0 ∨ unhealthy > 0 then HealthStatus.Degraded
    else if healthy > 0 then HealthStatus.Healthy
    else HealthStatus.Unknown
  { status := status
    healthy_servers := healthy
    degraded_servers := degraded
    unhealthy_servers := unhealthy
    total_players := acc.2.2.2.1
    total_capacity := acc.2.2.2.2
    timestamp := now }

/-- `ClusterHealth::load_factor` (src/health.rs line 228): guarded
division, 0 when total capacity is 0. -/
def ClusterHealth.load_factor (self : ClusterHealth) : ℚ :=
  if self.total_capacity = 0 then 0
  else (self.total_players : ℚ) / (self.total_capacity : ℚ)

/-- Modelled from the spec: `src/transfer.rs` is declared in `lib.rs` but
absent from the sources, so `TransferToken` (spec §3) is modelled from the
spec's words: it "carries player id, destination ServerId, issuance time,
and an expiry". -/
structure TransferToken where
  token_id : List Char
  player_id : PlayerId
  dest_server : ServerId
  issued_at : Nat
  expires_at : Nat
deriving DecidableEq

/-- Modelled from the spec: the `TransferError` variants named by spec §7
("token reuse, token expiry, target-server-unavailable"), `src/transfer.rs`
being absent from the sources. -/
inductive TransferError where
  | AlreadyUsed
  | Expired
  | WrongServer
deriving DecidableEq

/-- Human-readable message of a transfer error; spec §8 quotes the reuse
message as "token already used". -/
def TransferError.message : TransferError → List Char
  | TransferError.AlreadyUsed => "token already used".toList
  | TransferError.Expired => "token expired".toList
  | TransferError.WrongServer => "token names a different server".toList

/-- Modelled from the spec: redemption of a token (spec §4.3 step 4 and
§5(a)), `src/transfer.rs` being absent from the sources. The `used` flag
is the token's per-id validity state; the function is the atomic
check-and-invalidate: a used token fails with "already used", a token
presented by a server other than the one it names is rejected, a token
past its expiry is rejected, and a successful redemption sets the flag. -/
def TransferToken.redeem (tok : TransferToken) (used : Bool) (server : ServerId)
    (now : Nat) : Except TransferError Unit × Bool :=
  if used then (Except.error TransferError.AlreadyUsed, used)
  else if server ≠ tok.dest_server then (Except.error TransferError.WrongServer, used)
  else if tok.expires_at < now then (Except.error TransferError.Expired, used)
  else (Except.ok (), true)

/-- A sample server identifier used in concrete instantiations. -/
def sampleServerId : ServerId :=
  ServerId.from_string "horizon-1".toList

/-- A healthy sample check: 50 of 100 players. -/
def sampleHealthyCheck : HealthCheck :=
  HealthCheck.healthy sampleServerId 50 100 0

/-- An unhealthy sample check. -/
def sampleUnhealthyCheck : HealthCheck :=
  HealthCheck.unhealthy sampleServerId "tick stalled".toList 0

/-- An upper-case variant of a valid hyphenated UUID string (the textual
form of the value 10 with its last digit written `A` instead of `a`). -/
def upperUuidStr : List Char :=
  ['0','0','0','0','0','0','0','0','-','0','0','0','0','-','0','0','0','0','-',
   '0','0','0','0','-','0','0','0','0','0','0','0','0','0','0','0','A']

/-- A sample transfer token for concrete instantiations. -/
def sampleToken : TransferToken :=
  { token_id := "tok-1".toList
    player_id := ⟨10⟩
    dest_server := sampleServerId
    issued_at := 100
    expires_at := 200 }

/-- C10: `ServerId` performs no UUID validation: `from_string` succeeds on
every string, `as_str` returns it unchanged, and `Display` prints it
verbatim — construction and conversion are the identity on arbitrary
strings. -/
theorem C10_server_id_no_validation (s : List Char) :
    ServerId.as_str (ServerId.from_string s) = s ∧
    ServerId.display (ServerId.from_string s) = s :=
  ⟨rfl, rfl⟩

/-- C4: every load/ratio computation is guarded against division by zero:
`ServerHeartbeat::new` sets `load = c / cap` when `cap > 0` and `0` when
`cap = 0` (in particular `new(id, status, 50, 100).load = 0.5`), and
`HealthCheck::load_factor` / `ClusterHealth::load_factor` likewise return
`players / capacity` when the capacity is positive and `0` when it is
zero; in this exact model no NaN or infinity can arise. -/
theorem C4_load_ratio_guarded :
    (∀ id st c now, (ServerHeartbeat.new id st c 0 now).load = 0) ∧
    (∀ id st c cap now, 0 < cap →
      (ServerHeartbeat.new id st c cap now).load = (c : ℚ) / (cap : ℚ)) ∧
    (∀ id st now, (ServerHeartbeat.new id st 50 100 now).load = 1 / 2) ∧
    (∀ hc : HealthCheck, hc.capacity = 0 → hc.load_factor = 0) ∧
    (∀ hc : HealthCheck, hc.capacity ≠ 0 →
      hc.load_factor = (hc.player_count : ℚ) / (hc.capacity : ℚ)) ∧
    (∀ ch : ClusterHealth, ch.total_capacity = 0 → ch.load_factor = 0) ∧
    (∀ ch : ClusterHealth, ch.total_capacity ≠ 0 →
      ch.load_factor = (ch.total_players : ℚ) / (ch.total_capacity : ℚ)) := by
  refine ⟨?_, ?_, ?_, ?_, ?_, ?_, ?_⟩
  · intro id st c now
    simp [ServerHeartbeat.new]
  · intro id st c cap now hcap
    simp [ServerHeartbeat.new, hcap]
  · intro id st now
    norm_num [ServerHeartbeat.new]
  · intro hc h
    simp [HealthCheck.load_factor, h]
  · intro hc h
    simp [HealthCheck.load_factor, h]
  · intro ch h
    simp [ClusterHealth.load_factor, h]
  · intro ch h
    simp [ClusterHealth.load_factor, h]

/-- Witness for C4 at concrete inputs: 50 of 100 connections give load
one half, and a zero-capacity check gives load factor zero. -/
theorem C4_load_ratio_guarded_witness :
    (ServerHeartbeat.new sampleServerId ServerStatus.Running 50 100 0).load = 1 / 2 ∧
    sampleUnhealthyCheck.load_factor = 0 :=
  ⟨C4_load_ratio_guarded.2.2.1 sampleServerId ServerStatus.Running 0,
   C4_load_ratio_guarded.2.2.2.1 sampleUnhealthyCheck rfl⟩

/-- C1 (failing input for the sign convention): the point `(5,5,5)` lies
strictly inside the box `[0,10]³` (so `contains` holds and every face is 5
away), yet `distance_to_boundary` evaluates to `+5`: the code returns a
positive value for an interior point, while the claim (and the function's
own doc comment, src/spatial.rs line 252) says the result must be negative
there. -/
theorem C1_distance_to_boundary_sign_flipped :
    RegionBounds.contains ⟨0, 10, 0, 10, 0, 10⟩ ⟨5, 5, 5⟩ = true ∧
    RegionBounds.distance_to_boundary ⟨0, 10, 0, 10, 0, 10⟩ ⟨5, 5, 5⟩ = 5 ∧
    0 < RegionBounds.distance_to_boundary ⟨0, 10, 0, 10, 0, 10⟩ ⟨5, 5, 5⟩ := by
  refine ⟨by decide, ?_, ?_⟩ <;> norm_num [RegionBounds.distance_to_boundary]

/-- C5: `adjacent_regions` returns exactly 6 coordinates, each at
Manhattan distance 1 from `r`, none equal to `r`, and none diagonal: at
most one axis differs (and by Manhattan distance 1 it differs by exactly
±1). -/
theorem C5_adjacent_regions_axis_neighbours (r : RegionCoordinate) :
    r.adjacent_regions.length = 6 ∧
    ∀ q ∈ r.adjacent_regions,
      r.manhattan_distance q = 1 ∧ q ≠ r ∧
      ((q.x = r.x ∧ q.y = r.y) ∨ (q.x = r.x ∧ q.z = r.z) ∨ (q.y = r.y ∧ q.z = r.z)) := by
  obtain ⟨x, y, z⟩ := r
  refine ⟨rfl, ?_⟩
  intro q hq
  simp only [RegionCoordinate.adjacent_regions, List.mem_cons, List.not_mem_nil,
    or_false] at hq
  rcases hq with h | h | h | h | h | h <;> subst h <;>
    refine ⟨?_, ?_, ?_⟩ <;>
    simp_all [RegionCoordinate.manhattan_distance, RegionCoordinate.mk.injEq]

/-- Witness for C5 at the origin and its +x neighbour. -/
theorem C5_adjacent_regions_axis_neighbours_witness :
    (RegionCoordinate.mk 0 0 0).adjacent_regions.length = 6 ∧
    (RegionCoordinate.mk 0 0 0).manhattan_distance ⟨1, 0, 0⟩ = 1 :=
  ⟨(C5_adjacent_regions_axis_neighbours ⟨0, 0, 0⟩).1,
   (((C5_adjacent_regions_axis_neighbours ⟨0, 0, 0⟩).2 ⟨1, 0, 0⟩) (by decide)).1⟩

/-- C6: mapping a region to its world-coordinate centre and back through
floor division recovers the same region, for every region size `s > 0` and
every (also negative) coordinate. -/
theorem C6_region_world_roundtrip (r : RegionCoordinate) (s : ℚ) (hs : 0 < s) :
    RegionCoordinate.from_world_coordinate (r.to_world_center s) s = r := by
  obtain ⟨x, y, z⟩ := r
  simp only [RegionCoordinate.to_world_center, RegionCoordinate.from_world_coordinate]
  rw [mul_div_cancel_right₀ _ hs.ne', mul_div_cancel_right₀ _ hs.ne',
    mul_div_cancel_right₀ _ hs.ne']
  simp [Int.floor_intCast]

/-- Witness for C6 at a region with negative components and size 100. -/
theorem C6_region_world_roundtrip_witness :
    RegionCoordinate.from_world_coordinate
      (RegionCoordinate.to_world_center ⟨2, -3, 5⟩ 100) 100 = ⟨2, -3, 5⟩ :=
  C6_region_world_roundtrip ⟨2, -3, 5⟩ 100 (by norm_num)

/-- `contains` unfolded to its six inclusive comparisons. -/
lemma RegionBounds.contains_eq_true_iff (b : RegionBounds) (c : WorldCoordinate) :
    b.contains c = true ↔
      b.min_x ≤ c.x ∧ c.x ≤ b.max_x ∧ b.min_y ≤ c.y ∧ c.y ≤ b.max_y ∧
      b.min_z ≤ c.z ∧ c.z ≤ b.max_z := by
  simp [RegionBounds.contains, and_assoc]

/-- `overlaps` unfolded to its six inclusive comparisons. -/
lemma RegionBounds.overlaps_eq_true_iff (a b : RegionBounds) :
    a.overlaps b = true ↔
      a.min_x ≤ b.max_x ∧ b.min_x ≤ a.max_x ∧ a.min_y ≤ b.max_y ∧ b.min_y ≤ a.max_y ∧
      a.min_z ≤ b.max_z ∧ b.min_z ≤ a.max_z := by
  simp [RegionBounds.overlaps, and_assoc]

/-- C7: for well-formed bounds (min ≤ max on every axis, the RegionBounds
invariant of spec §3), two boxes sharing exactly the face
`B.min_x = A.max_x` (all other extents equal) overlap, `contains` is
inclusive (the min corner of `A` is contained), and every point of the
shared face is contained in both boxes. -/
theorem C7_shared_face_overlap (A B : RegionBounds)
    (hax : A.min_x ≤ A.max_x) (hay : A.min_y ≤ A.max_y) (haz : A.min_z ≤ A.max_z)
    (hbx : B.min_x ≤ B.max_x) (hfx : B.min_x = A.max_x)
    (hfy1 : B.min_y = A.min_y) (hfy2 : B.max_y = A.max_y)
    (hfz1 : B.min_z = A.min_z) (hfz2 : B.max_z = A.max_z) :
    A.overlaps B = true ∧
    A.contains ⟨A.min_x, A.min_y, A.min_z⟩ = true ∧
    ∀ p : WorldCoordinate, p.x = A.max_x →
      A.min_y ≤ p.y → p.y ≤ A.max_y → A.min_z ≤ p.z → p.z ≤ A.max_z →
      A.contains p = true ∧ B.contains p = true := by
  refine ⟨?_, ?_, ?_⟩
  · rw [RegionBounds.overlaps_eq_true_iff]
    refine ⟨by linarith, by linarith, by linarith, by linarith, by linarith, by linarith⟩
  · rw [RegionBounds.contains_eq_true_iff]
    exact ⟨le_refl _, hax, le_refl _, hay, le_refl _, haz⟩
  · intro p hx hy1 hy2 hz1 hz2
    constructor <;> rw [RegionBounds.contains_eq_true_iff] <;>
      refine ⟨by linarith, by linarith, by linarith, by linarith, by linarith, by linarith⟩

/-- Witness for C7: the unit boxes `[0,1]³` and `[1,2]×[0,1]²` overlap and
both contain the shared-face point `(1,0,0)`. -/
theorem C7_shared_face_overlap_witness :
    RegionBounds.overlaps ⟨0, 1, 0, 1, 0, 1⟩ ⟨1, 2, 0, 1, 0, 1⟩ = true ∧
    RegionBounds.contains ⟨0, 1, 0, 1, 0, 1⟩ ⟨1, 0, 0⟩ = true ∧
    RegionBounds.contains ⟨1, 2, 0, 1, 0, 1⟩ ⟨1, 0, 0⟩ = true := by
  have h := C7_shared_face_overlap ⟨0, 1, 0, 1, 0, 1⟩ ⟨1, 2, 0, 1, 0, 1⟩
    (by norm_num) (by norm_num) (by norm_num) (by norm_num)
    (by norm_num) (by norm_num) (by norm_num) (by norm_num) (by norm_num)
  have hp := h.2.2 ⟨1, 0, 0⟩ (by norm_num) (by norm_num) (by norm_num)
    (by norm_num) (by norm_num)
  exact ⟨h.1, hp.1, hp.2⟩

/-- The three wrapping u32 status counters of the `ClusterHealth::new`
loop compute exact counts as long as they cannot wrap, i.e. as long as the
starting value plus the number of remaining checks stays below `2^32`. -/
lemma clusterFold_counters (l : List HealthCheck) : ∀ h d u tp tc : Nat,
    h + l.length < 4294967296 → d + l.length < 4294967296 →
    u + l.length < 4294967296 →
    (List.foldl clusterStep (h, d, u, tp, tc) l).1 =
        h + l.countP (fun c => c.status == HealthStatus.Healthy) ∧
    (List.foldl clusterStep (h, d, u, tp, tc) l).2.1 =
        d + l.countP (fun c => c.status == HealthStatus.Degraded) ∧
    (List.foldl clusterStep (h, d, u, tp, tc) l).2.2.1 =
        u + l.countP (fun c => c.status == HealthStatus.Unhealthy ||
                               c.status == HealthStatus.Unknown) := by
  induction l with
  | nil =>
    intro h d u tp tc _ _ _
    simp
  | cons x xs ih =>
    intro h d u tp tc hh hd hu
    simp only [List.length_cons] at hh hd hu
    cases hx : x.status
    case Healthy =>
      have hstep : clusterStep (h, d, u, tp, tc) x =
          (h + 1, d, u, (tp + x.player_count) % 4294967296,
           (tc + x.capacity) % 4294967296) := by
        simp [clusterStep, hx, Nat.mod_eq_of_lt (show h + 1 < 4294967296 by omega)]
      obtain ⟨i1, i2, i3⟩ := ih (h + 1) d u ((tp + x.player_count) % 4294967296)
        ((tc + x.capacity) % 4294967296) (by omega) (by omega) (by omega)
      refine ⟨?_, ?_, ?_⟩ <;> (simp [List.foldl_cons, hstep, i1, i2, i3, List.countP_cons, hx]; try omega)
    case Degraded =>
      have hstep : clusterStep (h, d, u, tp, tc) x =
          (h, d + 1, u, (tp + x.player_count) % 4294967296,
           (tc + x.capacity) % 4294967296) := by
        simp [clusterStep, hx, Nat.mod_eq_of_lt (show d + 1 < 4294967296 by omega)]
      obtain ⟨i1, i2, i3⟩ := ih h (d + 1) u ((tp + x.player_count) % 4294967296)
        ((tc + x.capacity) % 4294967296) (by omega) (by omega) (by omega)
      refine ⟨?_, ?_, ?_⟩ <;> (simp [List.foldl_cons, hstep, i1, i2, i3, List.countP_cons, hx]; try omega)
    case Unhealthy =>
      have hstep : clusterStep (h, d, u, tp, tc) x =
          (h, d, u + 1, (tp + x.player_count) % 4294967296,
           (tc + x.capacity) % 4294967296) := by
        simp [clusterStep, hx, Nat.mod_eq_of_lt (show u + 1 < 4294967296 by omega)]
      obtain ⟨i1, i2, i3⟩ := ih h d (u + 1) ((tp + x.player_count) % 4294967296)
        ((tc + x.capacity) % 4294967296) (by omega) (by omega) (by omega)
      refine ⟨?_, ?_, ?_⟩ <;> (simp [List.foldl_cons, hstep, i1, i2, i3, List.countP_cons, hx]; try omega)
    case Unknown =>
      have hstep : clusterStep (h, d, u, tp, tc) x =
          (h, d, u + 1, (tp + x.player_count) % 4294967296,
           (tc + x.capacity) % 4294967296) := by
        simp [clusterStep, hx, Nat.mod_eq_of_lt (show u + 1 < 4294967296 by omega)]
      obtain ⟨i1, i2, i3⟩ := ih h d (u + 1) ((tp + x.player_count) % 4294967296)
        ((tc + x.capacity) % 4294967296) (by omega) (by omega) (by omega)
      refine ⟨?_, ?_, ?_⟩ <;> (simp [List.foldl_cons, hstep, i1, i2, i3, List.countP_cons, hx]; try omega)

/-- C2: `ClusterHealth::new` counts each `Unknown` snapshot into the
unhealthy counter and derives the overall status by the cascade
`Unhealthy` iff some Unhealthy/Unknown and zero Healthy, else `Degraded`
iff some Degraded or Unhealthy/Unknown, else `Healthy` iff some Healthy,
else `Unknown` (empty input); stated for inputs short enough that the u32
counters cannot wrap. -/
theorem C2_cluster_status_aggregation (checks : List HealthCheck) (now : Nat)
    (hlen : checks.length < 4294967296) :
    (ClusterHealth.new checks now).healthy_servers =
        checks.countP (fun c => c.status == HealthStatus.Healthy) ∧
    (ClusterHealth.new checks now).degraded_servers =
        checks.countP (fun c => c.status == HealthStatus.Degraded) ∧
    (ClusterHealth.new checks now).unhealthy_servers =
        checks.countP (fun c => c.status == HealthStatus.Unhealthy ||
                                c.status == HealthStatus.Unknown) ∧
    (ClusterHealth.new checks now).status =
      (if 0 < checks.countP (fun c => c.status == HealthStatus.Unhealthy ||
                                      c.status == HealthStatus.Unknown) ∧
          checks.countP (fun c => c.status == HealthStatus.Healthy) = 0 then
        HealthStatus.Unhealthy
       else if 0 < checks.countP (fun c => c.status == HealthStatus.Degraded) ∨
          0 < checks.countP (fun c => c.status == HealthStatus.Unhealthy ||
                                      c.status == HealthStatus.Unknown) then
        HealthStatus.Degraded
       else if 0 < checks.countP (fun c => c.status == HealthStatus.Healthy) then
        HealthStatus.Healthy
       else HealthStatus.Unknown) := by
  obtain ⟨h1, h2, h3⟩ :=
    clusterFold_counters checks 0 0 0 0 0 (by omega) (by omega) (by omega)
  refine ⟨?_, ?_, ?_, ?_⟩ <;>
    simp only [ClusterHealth.new, h1, h2, h3, Nat.zero_add]

/-- Witness for C2: one Healthy plus one Unhealthy check aggregate to
`Degraded`. -/
theorem C2_cluster_status_aggregation_witness :
    (ClusterHealth.new [sampleHealthyCheck, sampleUnhealthyCheck] 0).status =
      HealthStatus.Degraded := by
  have h := C2_cluster_status_aggregation [sampleHealthyCheck, sampleUnhealthyCheck] 0
    (by norm_num)
  rw [h.2.2.2]
  decide

/-- Two iterations of the `ClusterHealth::new` loop commute: each counter
is touched independently and wrapping u32 addition is commutative. -/
lemma clusterStep_comm (a : Nat × Nat × Nat × Nat × Nat) (x y : HealthCheck) :
    clusterStep (clusterStep a x) y = clusterStep (clusterStep a y) x := by
  obtain ⟨h, d, u, tp, tc⟩ := a
  cases hx : x.status <;> cases hy : y.status <;>
    simp [clusterStep, hx, hy, Prod.ext_iff] <;> omega

/-- C3: the aggregation of `ClusterHealth::new` is a fold over a
commutative step, so permuting the input snapshots changes nothing:
status, all three counters, total players and total capacity agree. -/
theorem C3_cluster_aggregation_perm_invariant (l l' : List HealthCheck) (now : Nat)
    (hp : l.Perm l') :
    ClusterHealth.new l now = ClusterHealth.new l' now := by
  have hfold : List.foldl clusterStep (0, 0, 0, 0, 0) l =
      List.foldl clusterStep (0, 0, 0, 0, 0) l' :=
    hp.foldl_eq' (fun x _ y _ z => clusterStep_comm z x y) (0, 0, 0, 0, 0)
  simp only [ClusterHealth.new, hfold]

/-- Witness for C3: swapping a two-element snapshot list leaves the
aggregate unchanged. -/
theorem C3_cluster_aggregation_perm_invariant_witness :
    ClusterHealth.new [sampleHealthyCheck, sampleUnhealthyCheck] 0 =
    ClusterHealth.new [sampleUnhealthyCheck, sampleHealthyCheck] 0 :=
  C3_cluster_aggregation_perm_invariant _ _ 0
    (List.Perm.swap sampleUnhealthyCheck sampleHealthyCheck [])

/-- C9 (modelled from the spec, `src/transfer.rs` being absent from the
sources): a token is redeemable at most once and only by the server it
names. With a fresh token, the named server and a time within the expiry,
redemption succeeds and atomically invalidates the token; every further
attempt on the invalidated token fails with the "token already used"
error and leaves it invalid; redemption after expiry is always rejected,
as is redemption by any server other than the named destination. -/
theorem C9_token_redeemed_at_most_once (tok : TransferToken) (server : ServerId)
    (now : Nat) (hserver : server = tok.dest_server) (hfresh : now ≤ tok.expires_at) :
    tok.redeem false server now = (Except.ok (), true) ∧
    (∀ s2 t2, (tok.redeem true s2 t2).1 = Except.error TransferError.AlreadyUsed ∧
              (tok.redeem true s2 t2).2 = true) ∧
    TransferError.message TransferError.AlreadyUsed = "token already used".toList ∧
    (∀ u s2 t2, tok.expires_at < t2 → (tok.redeem u s2 t2).1 ≠ Except.ok ()) ∧
    (∀ u s2 t2, s2 ≠ tok.dest_server → (tok.redeem u s2 t2).1 ≠ Except.ok ()) := by
  refine ⟨?_, ?_, rfl, ?_, ?_⟩
  · simp [TransferToken.redeem, hserver, Nat.not_lt.2 hfresh]
  · intro s2 t2
    simp [TransferToken.redeem]
  · intro u s2 t2 hexp
    cases u <;> simp [TransferToken.redeem, hexp]
    split <;> simp
  · intro u s2 t2 hs
    cases u <;> simp [TransferToken.redeem, hs]

/-- Witness for C9: the sample token is redeemed once by the server it
names before expiry; the retry fails with "token already used". -/
theorem C9_token_redeemed_at_most_once_witness :
    sampleToken.redeem false sampleServerId 150 = (Except.ok (), true) ∧
    (sampleToken.redeem true sampleServerId 150).1 =
      Except.error TransferError.AlreadyUsed := by
  have h := C9_token_redeemed_at_most_once sampleToken sampleServerId 150 rfl
    (by norm_num [sampleToken])
  exact ⟨h.1, (h.2.1 sampleServerId 150).1⟩

/-- Printing a hex digit and reading it back is the identity on values
below 16. -/
lemma hexVal_hexChar : ∀ d, d < 16 → hexVal (hexChar d) = some d := by
  decide

/-- Reading `w` hex characters from a fixed-width rendering of `n < 16^w`
followed by arbitrary input consumes exactly the rendering and yields
`acc·16^w + n`. -/
lemma readHexGroup_hexBE : ∀ (w acc n : Nat) (rest : List Char), n < 16 ^ w →
    readHexGroup acc w (hexBE n w ++ rest) = some (acc * 16 ^ w + n, rest) := by
  intro w
  induction w with
  | zero =>
    intro acc n rest h
    have hn : n = 0 := by omega
    simp [hexBE, readHexGroup, hn]
  | succ w ih =>
    intro acc n rest h
    have hpos : 0 < 16 ^ w := pow_pos (by norm_num) w
    have hd : n / 16 ^ w < 16 := by
      rw [Nat.div_lt_iff_lt_mul hpos]
      calc n < 16 ^ (w + 1) := h
        _ = 16 * 16 ^ w := by ring
    simp only [hexBE, List.cons_append, readHexGroup, hexVal_hexChar _ hd]
    rw [List.append_eq]
    rw [ih (acc * 16 + n / 16 ^ w) (n % 16 ^ w) rest (Nat.mod_lt _ hpos)]
    have hn := Nat.div_add_mod n (16 ^ w)
    congr 2
    calc (acc * 16 + n / 16 ^ w) * 16 ^ w + n % 16 ^ w
        = acc * (16 ^ w * 16) + (16 ^ w * (n / 16 ^ w) + n % 16 ^ w) := by ring
      _ = acc * 16 ^ (w + 1) + n := by rw [hn, pow_succ]

/-- The nil-rest special case of `readHexGroup_hexBE`. -/
lemma readHexGroup_hexBE_nil (w acc n : Nat) (h : n < 16 ^ w) :
    readHexGroup acc w (hexBE n w) = some (acc * 16 ^ w + n, []) := by
  have e := readHexGroup_hexBE w acc n [] h
  rwa [List.append_nil] at e

/-- Recombining the five groups of a 128-bit value recovers the value. -/
lemma uuid_recombine (n : Nat) :
    (((n / 16 ^ 24 * 16 ^ 4 + n / 16 ^ 20 % 16 ^ 4) * 16 ^ 4 + n / 16 ^ 16 % 16 ^ 4) * 16 ^ 4
      + n / 16 ^ 12 % 16 ^ 4) * 16 ^ 12 + n % 16 ^ 12 = n := by
  omega

/-- Parsing the canonical textual form of a 128-bit value yields the
value back. -/
lemma parse_uuid_roundtrip (n : Nat) (h : n < 2 ^ 128) :
    parseUuidChars (uuidChars n) = some n := by
  have h1 : n / 16 ^ 24 < 16 ^ 8 := by
    rw [Nat.div_lt_iff_lt_mul (by norm_num : (0:ℕ) < 16 ^ 24)]
    calc n < 2 ^ 128 := h
      _ = 16 ^ 8 * 16 ^ 24 := by norm_num
  have h2 : n / 16 ^ 20 % 16 ^ 4 < 16 ^ 4 := Nat.mod_lt _ (by norm_num)
  have h3 : n / 16 ^ 16 % 16 ^ 4 < 16 ^ 4 := Nat.mod_lt _ (by norm_num)
  have h4 : n / 16 ^ 12 % 16 ^ 4 < 16 ^ 4 := Nat.mod_lt _ (by norm_num)
  have h5 : n % 16 ^ 12 < 16 ^ 12 := Nat.mod_lt _ (by norm_num)
  simp only [uuidChars, parseUuidChars, readHexGroup_hexBE, readHexGroup_hexBE_nil,
    h1, h2, h3, h4, h5, Option.some.injEq, Nat.zero_mul, Nat.zero_add]
  exact uuid_recombine n

/-- C8 counterexample: the claim that every valid UUID textual form
round-trips losslessly through `PlayerId` fails on upper-case input. The
string `00000000-0000-0000-0000-00000000000A` is accepted by the parser
(value 10), but printing that `PlayerId` yields the lower-case form, a
different string. -/
theorem C8_uppercase_input_not_lossless :
    PlayerId.from_str upperUuidStr = some ⟨10⟩ ∧
    PlayerId.to_string ⟨10⟩ ≠ upperUuidStr := by
  constructor <;> decide

/-- C8 amended: the typed-side round trip is lossless — for every
`PlayerId`, parsing its printed form returns it — and a string-side round
trip is lossless exactly when the string is already in canonical
lower-case hyphenated form; parsing merely normalises the case of other
valid forms. -/
theorem C8_playerid_roundtrip :
    (∀ p : PlayerId, p.val < 2 ^ 128 →
      PlayerId.from_str (PlayerId.to_string p) = some p) ∧
    (∀ n : Nat, n < 2 ^ 128 →
      PlayerId.from_str (uuidChars n) = some ⟨n⟩ ∧
      PlayerId.to_string ⟨n⟩ = uuidChars n) := by
  refine ⟨?_, ?_⟩
  · intro p hp
    obtain ⟨n⟩ := p
    simp [PlayerId.from_str, PlayerId.to_string, parse_uuid_roundtrip n hp]
  · intro n hn
    exact ⟨by simp [PlayerId.from_str, parse_uuid_roundtrip n hn], rfl⟩

/-- Witness for C8 at the concrete `PlayerId` with value 10. -/
theorem C8_playerid_roundtrip_witness :
    PlayerId.from_str (PlayerId.to_string ⟨10⟩) = some ⟨10⟩ :=
  C8_playerid_roundtrip.1 ⟨10⟩ (by norm_num)
